import Mathlib

/-!
Verification development for the academic-podcast cron job.

The Python sources are shallowly embedded as follows: byte strings become
`List Nat` (one entry per byte value), Python dictionaries holding
heterogeneous values become association lists over `PValue`, and fallible
Python code becomes `Except String`.  Calls to external collaborators
(HTTP fetches, the generation provider, the Supabase backend) are modelled
as oracle parameters of type `Except String _` that each embedded function
receives; the embedded control flow around those oracles follows the
Python source.
-/

/-- Embedding of the pydantic model `PaperInfo` (podcast_generater.py,
lines 23-30).  The model declares exactly the six fields below; in
particular it has no `tags` field and no `authors` field. -/
structure PaperInfo where
  title : String
  abstract : String
  field : String
  innovations : List String
  method : String
  results : String
deriving Repr, DecidableEq

/-- Heterogeneous value stored in an embedded Python dictionary. -/
inductive PValue where
  | str (s : String)
  | strList (l : List String)
  | info (i : PaperInfo)
  | bytes (b : List Nat)
  | nat (n : Nat)
deriving Repr, DecidableEq

/-- Raw JSON payload the extraction provider returns, before pydantic
validation: each field of the `PaperInfo` schema may be present or
missing. -/
structure PaperInfoJson where
  title : Option String
  abstract : Option String
  field : Option String
  innovations : Option (List String)
  method : Option String
  results : Option String
deriving Repr, DecidableEq

/-- Embedding of `PaperInfo.model_validate_json` (podcast_generater.py,
line 187): pydantic accepts the payload iff every declared field is
present with the declared type.  String values are passed through
unchanged; in particular the empty string is accepted. -/
def paper_info_model_validate (j : PaperInfoJson) : Except String PaperInfo :=
  match j.title, j.abstract, j.field, j.innovations, j.method, j.results with
  | some t, some a, some f, some i, some m, some r =>
      .ok { title := t, abstract := a, field := f, innovations := i, method := m, results := r }
  | _, _, _, _, _, _ => .error "pydantic validation error: missing field"

/-- Embedding of `PaperPodcastGenerator.extract_paper_info`
(podcast_generater.py, lines 157-192).  The provider response is the
oracle `resp`; any failure is re-raised wrapped in the fixed prefix from
line 192. -/
def extract_paper_info (resp : Except String PaperInfoJson) : Except String PaperInfo :=
  match resp with
  | .error e => .error ("分析論文失敗: " ++ e)
  | .ok j =>
      match paper_info_model_validate j with
      | .error e => .error ("分析論文失敗: " ++ e)
      | .ok info => .ok info

/-! Audio packaging: embedding of `convert_pcm_to_wav_in_memory`
(src/utils/audio_utils.py, lines 6-23, byte-identical logic in
src/main.py, lines 57-65), which drives CPython's `wave` module writer
over an in-memory buffer.  The `wave` writer emits the RIFF/WAVE header
with `struct.pack`, whose `<H`/`<L` fields are range-checked 16/32-bit
little-endian integers, then the sample bytes verbatim, then (when the
byte count is not a whole number of frames) patches the two length
fields with the actual byte count. -/

/-- ASCII bytes of the RIFF chunk tag. -/
def RIFF_TAG : List Nat := [0x52, 0x49, 0x46, 0x46]

/-- ASCII bytes of the WAVE form tag. -/
def WAVE_TAG : List Nat := [0x57, 0x41, 0x56, 0x45]

/-- ASCII bytes of the fmt subchunk tag. -/
def FMT_TAG : List Nat := [0x66, 0x6d, 0x74, 0x20]

/-- ASCII bytes of the data subchunk tag. -/
def DATA_TAG : List Nat := [0x64, 0x61, 0x74, 0x61]

/-- Little-endian 16-bit encoding of a natural number. -/
def u16le (n : Nat) : List Nat := [n % 256, n / 256 % 256]

/-- Little-endian 32-bit encoding of a natural number. -/
def u32le (n : Nat) : List Nat :=
  [n % 256, n / 256 % 256, n / 65536 % 256, n / 16777216 % 256]

/-- Embedding of `struct.pack` with format `<H`: errors when the value
does not fit in 16 bits. -/
def packU16 (n : Nat) : Except String (List Nat) :=
  if n < 65536 then .ok (u16le n) else .error "struct.error: argument out of range"

/-- Embedding of `struct.pack` with format `<L`: errors when the value
does not fit in 32 bits. -/
def packU32 (n : Nat) : Except String (List Nat) :=
  if n < 4294967296 then .ok (u32le n) else .error "struct.error: argument out of range"

/-- Embedding of `convert_pcm_to_wav_in_memory`: the `wave` writer's
parameter checks (`setnchannels`, `setsampwidth`, `setframerate`) in call
order, then the header fields in the order `_write_header` packs them,
then the length patch `_patchheader` performs when the byte count is not
a whole number of frames. -/
def convert_pcm_to_wav_in_memory (pcm_data : List Nat) (channels sample_width frame_rate : Nat) :
    Except String (List Nat) := do
  if channels < 1 then throw "wave.Error: bad # of channels"
  if sample_width < 1 ∨ 4 < sample_width then throw "wave.Error: bad sample width"
  if frame_rate ≤ 0 then throw "wave.Error: bad frame rate"
  let riffSize ← packU32 (36 + pcm_data.length / (channels * sample_width) * (channels * sample_width))
  let fmtSize ← packU32 16
  let audioFmt ← packU16 1
  let nch ← packU16 channels
  let rate ← packU32 frame_rate
  let byteRate ← packU32 (channels * frame_rate * sample_width)
  let blockAlign ← packU16 (channels * sample_width)
  let bits ← packU16 (sample_width * 8)
  let dataSize ← packU32 (pcm_data.length / (channels * sample_width) * (channels * sample_width))
  if pcm_data.length / (channels * sample_width) * (channels * sample_width) = pcm_data.length then
    return RIFF_TAG ++ riffSize ++ WAVE_TAG ++ FMT_TAG ++ fmtSize ++ audioFmt ++ nch ++ rate ++
      byteRate ++ blockAlign ++ bits ++ DATA_TAG ++ dataSize ++ pcm_data
  else
    let riffSizePatched ← packU32 (36 + pcm_data.length)
    let dataSizePatched ← packU32 pcm_data.length
    return RIFF_TAG ++ riffSizePatched ++ WAVE_TAG ++ FMT_TAG ++ fmtSize ++ audioFmt ++ nch ++ rate ++
      byteRate ++ blockAlign ++ bits ++ DATA_TAG ++ dataSizePatched ++ pcm_data

/-- The 44-byte container header the writer produces for the given
declared parameters and payload byte count. -/
def wavHeader (channels sample_width frame_rate datalength : Nat) : List Nat :=
  RIFF_TAG ++ u32le (36 + datalength) ++ WAVE_TAG ++ FMT_TAG ++ u32le 16 ++ u16le 1 ++
    u16le channels ++ u32le frame_rate ++ u32le (channels * frame_rate * sample_width) ++
    u16le (channels * sample_width) ++ u16le (sample_width * 8) ++ DATA_TAG ++ u32le datalength

/-- Read a little-endian 16-bit value out of a byte list at an offset. -/
def readU16 (b : List Nat) (i : Nat) : Nat := b.getD i 0 + 256 * b.getD (i + 1) 0

/-- Read a little-endian 32-bit value out of a byte list at an offset. -/
def readU32 (b : List Nat) (i : Nat) : Nat :=
  b.getD i 0 + 256 * b.getD (i + 1) 0 + 65536 * b.getD (i + 2) 0 + 16777216 * b.getD (i + 3) 0

/-- Declared channel count of a packaged WAV byte string. -/
def wav_channels (b : List Nat) : Nat := readU16 b 22

/-- Declared frame rate of a packaged WAV byte string. -/
def wav_frame_rate (b : List Nat) : Nat := readU32 b 24

/-- Declared sample width (bytes) of a packaged WAV byte string. -/
def wav_sample_width (b : List Nat) : Nat := readU16 b 34 / 8

/-- Sample payload embedded in a packaged WAV byte string. -/
def wav_payload (b : List Nat) : List Nat := b.drop 44

/-- Parameter ranges under which every field of the WAV header is
representable: positive channel count, sample width between 1 and 4
bytes, positive frame rate, and the 16/32-bit header fields in range. -/
def ValidWavParams (channels sample_width frame_rate : Nat) : Prop :=
  1 ≤ channels ∧ 1 ≤ sample_width ∧ sample_width ≤ 4 ∧ 1 ≤ frame_rate ∧
    channels * sample_width < 65536 ∧ frame_rate < 4294967296 ∧
    channels * frame_rate * sample_width < 4294967296

instance (c w r : Nat) : Decidable (ValidWavParams c w r) := by
  unfold ValidWavParams
  infer_instance

/-! Deduplication gate. -/

/-- Row of the `papers` table, keyed by document identifier; only the
columns the deduplication gate touches are modelled. -/
structure PaperRow where
  arxiv_id : String
  title : String
deriving Repr, DecidableEq

/-- The backend's evaluation of `select(...).eq("arxiv_id", id)`: the rows
of the table whose key equals the queried identifier. -/
def query_papers (papers : List PaperRow) (arxiv_id : String) : List PaperRow :=
  papers.filter (fun p => p.arxiv_id == arxiv_id)

/-- Embedding of `check_paper_exists` (main.py, lines 26-33).  The oracle
`lookupResp` is the backend response; on success the caller supplies the
query result for the identifier, and any backend exception is the error
case, on which the function returns `false` (fail-open).  The function
performs a read only. -/
def check_paper_exists (lookupResp : Except String (List PaperRow)) : Bool :=
  match lookupResp with
  | .ok rows => decide (0 < rows.length)
  | .error _ => false

/-- Embedding of `SupabaseService.check_paper_exists`
(services/supabase_service.py, lines 19-31): returns the stored title when
a row exists, `none` when no row exists, and `none` (fail-open) when the
lookup raises. -/
def SupabaseService.check_paper_exists (lookupResp : Except String (List PaperRow)) : Option String :=
  match lookupResp with
  | .ok [] => none
  | .ok (r :: _) => some r.title
  | .error _ => none

/-! Content generation pipeline (podcast_generater.py). -/

/-- ASCII bytes of the `%PDF` magic signature. -/
def PDF_MAGIC : List Nat := [0x25, 0x50, 0x44, 0x46]

/-- Embedding of `PaperPodcastGenerator.read_pdf_from_url`
(podcast_generater.py, lines 75-96).  The oracle `httpResp` is the HTTP
fetch outcome (a non-2xx status or transport failure is its error case).
The checks, in source order: URL scheme, fetch success, and the `%PDF`
signature.  There is no size-ceiling check and no separate emptiness
check on this path.  (The scheme check `startswith` is modelled on the
character list of the string.) -/
def read_pdf_from_url (pdf_url : String) (httpResp : Except String (List Nat)) :
    Except String (List Nat) :=
  if !("http://".data.isPrefixOf pdf_url.data || "https://".data.isPrefixOf pdf_url.data) then
    .error ("下載PDF失敗: " ++ "無效的URL格式: " ++ pdf_url)
  else
    match httpResp with
    | .error e => .error ("下載PDF失敗: " ++ e)
    | .ok pdf_data =>
        if PDF_MAGIC.isPrefixOf pdf_data then .ok pdf_data
        else .error ("下載PDF失敗: " ++ "下載的檔案不是有效的PDF格式")

/-- Filesystem view of the local path handed to `read_pdf_from_file`. -/
structure LocalFile where
  pathExists : Bool
  isRegularFile : Bool
  content : List Nat
deriving Repr, DecidableEq

/-- Embedding of `self.max_file_size = 100 * 1024 * 1024`
(podcast_generater.py, line 58). -/
def max_file_size : Nat := 100 * 1024 * 1024

/-- Embedding of `PaperPodcastGenerator.read_pdf_from_file`
(podcast_generater.py, lines 98-155).  Checks in source order: existence,
regular file, non-zero size, size ceiling, then the `%PDF` signature;
each failure raises (re-wrapped by the handlers at lines 148-155). -/
def read_pdf_from_file (f : LocalFile) : Except String (List Nat) :=
  if !f.pathExists then .error "檔案不存在: 找不到檔案"
  else if !f.isRegularFile then .error "讀取PDF文件失敗: 路徑不是檔案"
  else if f.content.length = 0 then .error "讀取PDF文件失敗: 檔案是空的"
  else if max_file_size < f.content.length then .error "讀取PDF文件失敗: 檔案太大"
  else if PDF_MAGIC.isPrefixOf f.content then .ok f.content
  else .error "讀取PDF文件失敗: 檔案不是有效的PDF格式"

/-- Embedding of `generate_podcast_script` (podcast_generater.py, lines
194-232): the provider response passes through unvalidated; any failure
is re-raised wrapped. -/
def generate_podcast_script (resp : Except String String) : Except String String :=
  match resp with
  | .error e => .error ("生成逐字稿失敗: " ++ e)
  | .ok text => .ok text

/-- Embedding of `generate_audio` (podcast_generater.py, lines 234-262):
the speech-synthesis response is raw PCM bytes; on success the bytes are
written through the wave writer (`save_wave_file`, mono/16-bit/24 kHz)
to a file whose path is returned — the PCM bytes themselves are not
returned. -/
def generate_audio (resp : Except String (List Nat)) (output_folder : String) :
    Except String String :=
  match resp with
  | .error e => .error ("生成語音失敗: " ++ e)
  | .ok audio_data =>
      match convert_pcm_to_wav_in_memory audio_data 1 2 24000 with
      | .error e => .error ("生成語音失敗: " ++ e)
      | .ok _ => .ok (output_folder ++ "/播客音檔.wav")

/-- Oracle bundle for one run of the content generation pipeline: the
outcome of the HTTP fetch and of each of the three provider calls. -/
structure GenEnv where
  httpResp : Except String (List Nat)
  extractResp : Except String PaperInfoJson
  scriptResp : Except String String
  ttsResp : Except String (List Nat)

/-- Embedding of `PaperPodcastGenerator.process_paper`
(podcast_generater.py, lines 278-329).  Returns the result dictionary
built at lines 317-325 together with the list of generation-provider
calls that were made ("extract", "script", "tts", in execution order).
Local-disk saves of the info/script files are effects outside the
embedding.  The timestamped output folder name is abstracted to the
constant "output". -/
def process_paper (pdf_url : String) (env : GenEnv) :
    Except String (List (String × PValue)) × List String :=
  match read_pdf_from_url pdf_url env.httpResp with
  | .error e => (.error ("處理論文失敗: " ++ e), [])
  | .ok _pdf_data =>
      match extract_paper_info env.extractResp with
      | .error e => (.error ("處理論文失敗: " ++ e), ["extract"])
      | .ok paper_info =>
          match generate_podcast_script env.scriptResp with
          | .error e => (.error ("處理論文失敗: " ++ e), ["extract", "script"])
          | .ok script_text =>
              match generate_audio env.ttsResp "output" with
              | .error e => (.error ("處理論文失敗: " ++ e), ["extract", "script", "tts"])
              | .ok audio_path =>
                  (.ok [("paper_info", .info paper_info),
                        ("podcast_title", .str ("學術新知解密：深入探討《" ++ paper_info.title ++ "》")),
                        ("script", .str script_text),
                        ("output_folder", .str "output"),
                        ("audio_path", .str audio_path),
                        ("paper_info_path", .str "output/論文資訊.json"),
                        ("script_path", .str "output/播客逐字稿.txt")],
                   ["extract", "script", "tts"])

/-- Embedding of Python dictionary subscripting `d[k]`: raises `KeyError`
when the key is absent. -/
def dict_get (d : List (String × PValue)) (k : String) : Except String PValue :=
  match d.lookup k with
  | some v => .ok v
  | none => .error ("KeyError: '" ++ k ++ "'")

/-- Embedding of Python attribute access on a `PaperInfo` instance:
pydantic models raise `AttributeError` for attributes that are not
declared fields. -/
def PaperInfo.getAttr (i : PaperInfo) : String → Except String PValue
  | "title" => .ok (.str i.title)
  | "abstract" => .ok (.str i.abstract)
  | "field" => .ok (.str i.field)
  | "innovations" => .ok (.strList i.innovations)
  | "method" => .ok (.str i.method)
  | "results" => .ok (.str i.results)
  | attrName => .error ("AttributeError: 'PaperInfo' object has no attribute '" ++ attrName ++ "'")

/-- Embedding of the `db_record` construction in `main_workflow`
(main.py, lines 154-172), restricted to the entries read off the
`PaperInfo` instance (`title`, `abstract`, `tags`, `innovations`,
`method`, `results`) plus the locally available strings; the remaining
entries come from the search-result dictionary and are not read from
`PaperInfo`.  Attribute accesses happen in source order. -/
def build_main_db_record (arxiv_id : String) (paper_info : PaperInfo)
    (script audio_url : String) : Except String (List (String × PValue)) := do
  let titleVal ← paper_info.getAttr "title"
  let abstractVal ← paper_info.getAttr "abstract"
  let tagsVal ← paper_info.getAttr "tags"
  let innovationsVal ← paper_info.getAttr "innovations"
  let methodVal ← paper_info.getAttr "method"
  let resultsVal ← paper_info.getAttr "results"
  return [("arxiv_id", .str arxiv_id), ("title", titleVal), ("summary", abstractVal),
          ("full_text", .str script), ("tags", tagsVal), ("innovations", innovationsVal),
          ("method", methodVal), ("results", resultsVal), ("audio_url", .str audio_url)]

/-- Candidate descriptor produced by the source adapter (the fields
`main_workflow` reads before the per-paper try block). -/
structure Candidate where
  arxiv_id : String
  pdf_url : String
deriving Repr, DecidableEq

/-- Observable event of one `main_workflow` loop iteration. -/
inductive MainEv where
  | skipped (arxiv_id : String)
  | processed (arxiv_id : String)
  | failedPaper (arxiv_id : String) (msg : String)
deriving Repr, DecidableEq

/-- Embedding of the candidate loop of `main_workflow` (main.py, lines
105-183): the dedup check decides skipping; the whole per-paper try block
is the oracle `outcome`; an error is caught, logged with the identifier
(lines 177-180) and the loop continues; a success ends the loop at the
`break` on line 183. -/
def main_loop (existsCheck : String → Bool) (outcome : Candidate → Except String Unit) :
    List Candidate → List MainEv
  | [] => []
  | c :: rest =>
      if existsCheck c.arxiv_id then
        .skipped c.arxiv_id :: main_loop existsCheck outcome rest
      else
        match outcome c with
        | .error e => .failedPaper c.arxiv_id e :: main_loop existsCheck outcome rest
        | .ok _ => [.processed c.arxiv_id]

/-! Upload state machine (upload_processor.py and
services/supabase_service.py). -/

/-- Row of the `pending_uploads` table: the columns the core reads or
writes. -/
structure UploadRecord where
  id : String
  original_filename : String
  file_url : String
  user_id : String
  status : String
  error_message : Option String
  extracted_title : Option String
  extracted_authors : Option (List String)
  extracted_abstract : Option String
  created_at : Nat
deriving Repr, DecidableEq

/-- The `extracted_info` dictionary handed to
`update_pending_upload_status`: each key may be present or absent. -/
structure ExtractedUpd where
  title : Option String
  authors : Option (List String)
  abstract : Option String
deriving Repr, DecidableEq

/-- Embedding of `SupabaseService.update_pending_upload_status`
(services/supabase_service.py, lines 87-118): sets `status` on the rows
whose id matches, adds `error_message` only when the argument is truthy
(neither `None` nor the empty string), and adds each extracted field only
when present. -/
def update_pending_upload_status (tbl : List UploadRecord) (upload_id status : String)
    (error_message : Option String) (extracted_info : Option ExtractedUpd) : List UploadRecord :=
  tbl.map fun r =>
    if r.id == upload_id then
      { r with
        status := status
        error_message :=
          match error_message with
          | some m => if m == "" then r.error_message else some m
          | none => r.error_message
        extracted_title :=
          match extracted_info with
          | some e => match e.title with | some t => some t | none => r.extracted_title
          | none => r.extracted_title
        extracted_authors :=
          match extracted_info with
          | some e => match e.authors with | some a => some a | none => r.extracted_authors
          | none => r.extracted_authors
        extracted_abstract :=
          match extracted_info with
          | some e => match e.abstract with | some a => some a | none => r.extracted_abstract
          | none => r.extracted_abstract }
    else r

/-- Durable state the upload flow touches: the `pending_uploads` table and
the `papers` table (rows as dictionaries). -/
structure DB where
  pending_uploads : List UploadRecord
  papers : List (List (String × PValue))
deriving Repr, DecidableEq

/-- Observable event of the upload flow, in execution order: a status
write to `pending_uploads`, or an attempted external call. -/
inductive Ev where
  | statusUpdate (upload_id status : String) (error_message : Option String)
  | storageDownload (upload_id : String)
  | pipelineCall (upload_id : String)
  | audioUpload (upload_id : String)
  | paperInsert (upload_id : String)
deriving Repr, DecidableEq

/-- Embedding of `SupabaseService.insert_paper_from_upload`
(services/supabase_service.py, lines 149-186): on insert success the row
is appended to `papers` and the submission is moved to `completed`
together with the extracted fields; on insert failure the submission is
moved to `failed` with the error string and the error is re-raised. -/
def insert_paper_from_upload (db : DB) (paper_data : List (String × PValue)) (upload_id : String)
    (insertResp : Except String Unit) : Except String Unit × DB × List Ev :=
  match insertResp with
  | .ok _ =>
      let db1 : DB := { db with papers := db.papers ++ [paper_data] }
      let extracted : ExtractedUpd :=
        { title := match paper_data.lookup "title" with | some (.str s) => some s | _ => some ""
          authors := match paper_data.lookup "authors" with | some (.strList l) => some l | _ => some []
          abstract := match paper_data.lookup "summary" with | some (.str s) => some s | _ => some "" }
      let db2 : DB := { db1 with pending_uploads :=
        update_pending_upload_status db1.pending_uploads upload_id "completed" none (some extracted) }
      (.ok (), db2, [.paperInsert upload_id, .statusUpdate upload_id "completed" none])
  | .error e =>
      let db1 : DB := { db with pending_uploads :=
        update_pending_upload_status db.pending_uploads upload_id "failed" (some e) none }
      (.error e, db1, [.statusUpdate upload_id "failed" (some e)])

/-- Embedding of the `db_record` construction in
`UploadProcessor.process_single_upload` (upload_processor.py, lines
74-91).  Attribute accesses on the `PaperInfo` instance happen in source
order: `title`, `authors`, `abstract`, `field`, `tags`, `innovations`,
`method`, `results`. -/
def build_upload_db_record (upload_id file_url : String) (paper_info : PaperInfo)
    (script audio_url : String) (duration : Nat) : Except String (List (String × PValue)) := do
  let titleVal ← paper_info.getAttr "title"
  let authorsVal ← paper_info.getAttr "authors"
  let abstractVal ← paper_info.getAttr "abstract"
  let fieldVal ← paper_info.getAttr "field"
  let tagsVal ← paper_info.getAttr "tags"
  let innovationsVal ← paper_info.getAttr "innovations"
  let methodVal ← paper_info.getAttr "method"
  let resultsVal ← paper_info.getAttr "results"
  return [("title", titleVal), ("authors", authorsVal), ("journal", .str "用戶上傳"),
          ("summary", abstractVal), ("full_text", .str script), ("category", fieldVal),
          ("tags", tagsVal), ("innovations", innovationsVal), ("method", methodVal),
          ("results", resultsVal), ("audio_url", .str audio_url),
          ("duration_seconds", .nat duration), ("arxiv_url", .str file_url),
          ("pdf_url", .str file_url), ("arxiv_id", .str ("upload_" ++ upload_id.take 8))]

/-- The values `process_single_upload` reads out of the pipeline result
(upload_processor.py, lines 57-62). -/
structure PodcastVals where
  paper_info : PaperInfo
  script : String
  audio_data : List Nat
  duration_seconds : Nat
deriving Repr, DecidableEq

/-- Oracle bundle for one submission: outcomes of the Storage download,
the whole pipeline call together with the dictionary reads at lines
57-62 (any exception there, including the `KeyError` of C2, is the error
case), the audio upload, and the `papers` insert. -/
structure UploadOutcomes where
  downloadResp : Except String (List Nat)
  pipelineResp : Except String PodcastVals
  audioUploadResp : Except String String
  insertResp : Except String Unit

/-- Embedding of `UploadProcessor.process_single_upload`
(upload_processor.py, lines 27-112): move the submission to
`processing`, run download / pipeline / WAV packaging / audio upload /
record build / insert in order, and on any exception move the submission
to `failed` with the exception string; returns the success flag, the new
durable state, and the event trace. -/
def process_single_upload (o : UploadOutcomes) (db : DB) (rec : UploadRecord) :
    Bool × DB × List Ev :=
  let db1 : DB := { db with pending_uploads :=
    update_pending_upload_status db.pending_uploads rec.id "processing" none none }
  let fail := fun (db' : DB) (evs : List Ev) (e : String) =>
    (false,
     { db' with pending_uploads :=
        update_pending_upload_status db'.pending_uploads rec.id "failed" (some e) none },
     evs ++ [Ev.statusUpdate rec.id "failed" (some e)])
  let ev0 : List Ev := [.statusUpdate rec.id "processing" none]
  match o.downloadResp with
  | .error e => fail db1 (ev0 ++ [.storageDownload rec.id]) e
  | .ok _pdf_data =>
      let ev1 := ev0 ++ [.storageDownload rec.id, .pipelineCall rec.id]
      match o.pipelineResp with
      | .error e => fail db1 ev1 e
      | .ok vals =>
          match convert_pcm_to_wav_in_memory vals.audio_data 1 2 24000 with
          | .error e => fail db1 ev1 e
          | .ok _wav_data =>
              let ev2 := ev1 ++ [.audioUpload rec.id]
              match o.audioUploadResp with
              | .error e => fail db1 ev2 e
              | .ok audio_url =>
                  match build_upload_db_record rec.id rec.file_url vals.paper_info vals.script
                      audio_url vals.duration_seconds with
                  | .error e => fail db1 ev2 e
                  | .ok db_record =>
                      match insert_paper_from_upload db1 db_record rec.id o.insertResp with
                      | (.ok _, db2, evs) => (true, db2, ev2 ++ evs)
                      | (.error e, db2, evs) => fail db2 (ev2 ++ evs) e

/-- Embedding of `SupabaseService.get_pending_uploads`
(services/supabase_service.py, lines 69-85): the rows whose status is
`pending`, ordered by creation time ascending, truncated to the limit. -/
def get_pending_uploads (tbl : List UploadRecord) (limit : Nat) : List UploadRecord :=
  (((tbl.filter (fun r => r.status == "pending")).mergeSort
      (fun a b => decide (a.created_at ≤ b.created_at))).take limit)

/-- Summary dictionary returned by the batch driver. -/
structure BatchResults where
  total : Nat
  success : Nat
  failed : Nat
deriving Repr, DecidableEq

/-- The per-record loop of `UploadProcessor.process_pending_uploads`
(upload_processor.py, lines 135-140): each fetched record is processed
once, incrementing exactly one of the two counters. -/
def run_uploads (env : String → UploadOutcomes) : DB → List UploadRecord →
    (Nat × Nat) × DB × List Ev
  | db, [] => ((0, 0), db, [])
  | db, r :: rest =>
      let step := process_single_upload (env r.id) db r
      let restRun := run_uploads env step.2.1 rest
      ((restRun.1.1 + (if step.1 then 1 else 0), restRun.1.2 + (if step.1 then 0 else 1)),
       restRun.2.1, step.2.2 ++ restRun.2.2)

/-- Embedding of `UploadProcessor.process_pending_uploads`
(upload_processor.py, lines 114-145). -/
def process_pending_uploads (env : String → UploadOutcomes) (db : DB) (max_count : Nat) :
    BatchResults × DB × List Ev :=
  let pending := get_pending_uploads db.pending_uploads max_count
  if pending.isEmpty then ({ total := 0, success := 0, failed := 0 }, db, [])
  else
    let run := run_uploads env db pending
    ({ total := pending.length, success := run.1.1, failed := run.1.2 }, run.2.1, run.2.2)

/-- Statuses written for a given submission id, in order, by a trace. -/
def statusNames (evs : List Ev) (upload_id : String) : List String :=
  evs.filterMap fun e =>
    match e with
    | .statusUpdate i s _ => if i == upload_id then some s else none
    | _ => none

/-- Submission ids targeted by the status writes of a trace. -/
def statusEventIds (evs : List Ev) : List String :=
  evs.filterMap fun e => match e with | .statusUpdate i _ _ => some i | _ => none

/-- Submission ids moved to `processing` by a trace, in order. -/
def processingIds (evs : List Ev) : List String :=
  evs.filterMap fun e =>
    match e with
    | .statusUpdate i s _ => if s == "processing" then some i else none
    | _ => none

/-! Fixtures used by the theorems below. -/

/-- Concrete oracle bundle in which the fetch and all three provider
calls succeed. -/
def okGenEnv : GenEnv :=
  { httpResp := .ok (PDF_MAGIC ++ [0x2d, 0x31, 0x2e, 0x34])
    extractResp := .ok ⟨some "標題", some "摘要", some "人工智慧", some ["創新一"], some "方法", some "結果"⟩
    scriptResp := .ok "林冠傑: 大家好"
    ttsResp := .ok [0, 1, 2, 3] }

/-- A `PaperInfo` instance as produced by any successful extraction. -/
def samplePaperInfo : PaperInfo :=
  { title := "標題", abstract := "摘要", field := "人工智慧",
    innovations := ["創新一"], method := "方法", results := "結果" }

/-- A payload over the 100 MB ceiling that still carries the `%PDF`
signature. -/
def oversizedPdf : List Nat := PDF_MAGIC ++ List.replicate (100 * 1024 * 1024) 0

/-! Theorems. -/

/-- Bind on a successful `Except` computation reduces to the continuation. -/
theorem except_ok_bind {α β : Type} (a : α) (f : α → Except String β) :
    (Except.ok a : Except String α) >>= f = f a := rfl

/-- Bind on a failed `Except` computation short-circuits. -/
theorem except_error_bind {α β : Type} (e : String) (f : α → Except String β) :
    (Except.error e : Except String α) >>= f = Except.error e := rfl

/-- C1: the deduplication check answers "already processed" (`true`, resp.
a `some` title) exactly when a `papers` row with the queried identifier
exists, answers "new" (`false`, resp. `none`) when the lookup succeeds and
finds no row, and on a lookup error answers "new" as well (fail-open);
both embeddings are read-only by construction. -/
theorem c1_dedup_gate (db : List PaperRow) (d : String) (e : String) :
    ((∃ p ∈ db, p.arxiv_id = d) → check_paper_exists (.ok (query_papers db d)) = true) ∧
    ((¬ ∃ p ∈ db, p.arxiv_id = d) → check_paper_exists (.ok (query_papers db d)) = false) ∧
    check_paper_exists (.error e) = false ∧
    SupabaseService.check_paper_exists (.error e) = none ∧
    ((¬ ∃ p ∈ db, p.arxiv_id = d) →
      SupabaseService.check_paper_exists (.ok (query_papers db d)) = none) ∧
    ((∃ p ∈ db, p.arxiv_id = d) →
      ∃ t, SupabaseService.check_paper_exists (.ok (query_papers db d)) = some t) := by
  have hne : query_papers db d = [] ↔ ¬ ∃ p ∈ db, p.arxiv_id = d := by
    simp [query_papers, List.filter_eq_nil_iff]
  refine ⟨?_, ?_, rfl, rfl, ?_, ?_⟩
  · intro hex
    have : query_papers db d ≠ [] := fun h => (hne.mp h) hex
    simp [check_paper_exists, List.length_pos]
    exact this
  · intro hnex
    have : query_papers db d = [] := hne.mpr hnex
    simp [check_paper_exists, this]
  · intro hnex
    have : query_papers db d = [] := hne.mpr hnex
    simp [SupabaseService.check_paper_exists, this]
  · intro hex
    have : query_papers db d ≠ [] := fun h => (hne.mp h) hex
    rcases hq : query_papers db d with _ | ⟨r, rs⟩
    · exact absurd hq this
    · exact ⟨r.title, by simp [SupabaseService.check_paper_exists, hq]⟩

/-- C1 witness: concrete instances of all three behaviours. -/
theorem c1_dedup_gate_witness :
    check_paper_exists (.ok (query_papers [⟨"2401.00001", "T"⟩] "2401.00001")) = true ∧
    check_paper_exists (.ok (query_papers [⟨"2401.00001", "T"⟩] "9999.99999")) = false ∧
    check_paper_exists (.error "connection refused") = false :=
  ⟨(c1_dedup_gate [⟨"2401.00001", "T"⟩] "2401.00001" "connection refused").1
      ⟨⟨"2401.00001", "T"⟩, by decide, rfl⟩,
   (c1_dedup_gate [⟨"2401.00001", "T"⟩] "9999.99999" "connection refused").2.1 (by decide),
   (c1_dedup_gate [] "x" "connection refused").2.2.1⟩


/-- C2: on a run in which every pipeline stage succeeds, the result
dictionary `process_paper` returns carries exactly the keys built at
podcast_generater.py lines 317-325 — `audio_data` is not among them — so
the orchestrator's subscript `podcast_result['audio_data']` (main.py line
138, upload_processor.py line 61) raises `KeyError` and the synthesized
raw PCM bytes are never handed over for packaging. -/
theorem c2_audio_handoff :
    (process_paper "https://arxiv.org/pdf/2401.00001" okGenEnv).1.map
        (fun d => d.map Prod.fst) =
      Except.ok ["paper_info", "podcast_title", "script", "output_folder",
                 "audio_path", "paper_info_path", "script_path"] ∧
    (process_paper "https://arxiv.org/pdf/2401.00001" okGenEnv).1.map
        (fun d => dict_get d "audio_data") =
      Except.ok (Except.error "KeyError: 'audio_data'") := by
  exact ⟨rfl, rfl⟩


/-- C7: the `PaperInfo` model has no `tags` attribute, so building the
persisted record fails with `AttributeError` at the `paper_info.tags`
access (main.py line 162); the upload-flow record build fails even
earlier, at `paper_info.authors` (upload_processor.py line 76). -/
theorem c7_tags_attribute :
    samplePaperInfo.getAttr "tags" =
      Except.error "AttributeError: 'PaperInfo' object has no attribute 'tags'" ∧
    build_main_db_record "2401.00001" samplePaperInfo "逐字稿" "https://cdn/audio.wav" =
      Except.error "AttributeError: 'PaperInfo' object has no attribute 'tags'" ∧
    build_upload_db_record "u-1" "https://cdn/file.pdf" samplePaperInfo "逐字稿"
        "https://cdn/a.wav" 300 =
      Except.error "AttributeError: 'PaperInfo' object has no attribute 'authors'" := by
  exact ⟨rfl, rfl, rfl⟩

/-- C8 counterexample: a provider response whose textual fields are all
empty passes validation, and extraction returns the partially-empty
structure successfully instead of raising. -/
theorem c8_counterexample :
    extract_paper_info (.ok ⟨some "", some "", some "", some [], some "", some ""⟩) =
      Except.ok { title := "", abstract := "", field := "", innovations := [],
                  method := "", results := "" } := rfl

/-- C8 amended: extraction validates only the shape of the response —
success happens exactly when every schema field is present, the field
values (empty or not) passing through unchanged; a missing field or a
failed provider call raises wrapped in the fixed prefix. -/
theorem c8_extract_shape (t a f : String) (i : List String) (m r : String)
    (j : PaperInfoJson) (e : String) :
    extract_paper_info (.ok ⟨some t, some a, some f, some i, some m, some r⟩) =
      .ok { title := t, abstract := a, field := f, innovations := i, method := m, results := r } ∧
    (j.title = none → extract_paper_info (.ok j) =
      .error ("分析論文失敗: " ++ "pydantic validation error: missing field")) ∧
    extract_paper_info (.error e) = .error ("分析論文失敗: " ++ e) := by
  refine ⟨rfl, ?_, rfl⟩
  intro ht
  rcases j with ⟨jt, ja, jf, ji, jm, jr⟩
  simp only at ht
  subst ht
  rfl

/-- C8 witness: the amended theorem applied at a concrete response with a
missing `title` field. -/
theorem c8_extract_shape_witness :
    extract_paper_info (.ok ⟨none, some "a", some "f", some [], some "m", some "r"⟩) =
      .error ("分析論文失敗: " ++ "pydantic validation error: missing field") :=
  (c8_extract_shape "" "" "" [] "" "" ⟨none, some "a", some "f", some [], some "m", some "r"⟩
    "").2.1 rfl

/-- C9: an error raised anywhere inside the per-paper try block is caught
by the orchestrator, recorded together with the document identifier, and
the loop goes on to process the remaining candidates. -/
theorem c9_error_containment (existsCheck : String → Bool)
    (outcome : Candidate → Except String Unit) (c : Candidate) (rest : List Candidate)
    (e : String) (hnew : existsCheck c.arxiv_id = false) (herr : outcome c = .error e) :
    main_loop existsCheck outcome (c :: rest) =
      MainEv.failedPaper c.arxiv_id e :: main_loop existsCheck outcome rest := by
  simp [main_loop, hnew, herr]

/-- C9 witness: a concrete failing candidate followed by another
candidate; the loop records the failure with the identifier and
continues. -/
theorem c9_error_containment_witness :
    main_loop (fun _ => false)
        (fun c => if c.arxiv_id = "2401.00001" then .error "處理論文失敗: boom" else .ok ())
        [⟨"2401.00001", "u1"⟩, ⟨"2401.00002", "u2"⟩] =
      [MainEv.failedPaper "2401.00001" "處理論文失敗: boom", MainEv.processed "2401.00002"] := by
  rw [c9_error_containment (fun _ => false)
      (fun c => if c.arxiv_id = "2401.00001" then .error "處理論文失敗: boom" else .ok ())
      ⟨"2401.00001", "u1"⟩ [⟨"2401.00002", "u2"⟩] "處理論文失敗: boom" rfl (by simp)]
  rfl


/-- C6 counterexample: the URL acquisition path accepts a payload whose
size exceeds the 100 MB ceiling — no size validation exists on that
path, so the claimed "every acquisition validates the size ceiling" fails
here. -/
theorem c6_counterexample :
    max_file_size < oversizedPdf.length ∧
    read_pdf_from_url "https://arxiv.org/pdf/big.pdf" (.ok oversizedPdf) = .ok oversizedPdf := by
  have hscheme : ("http://".data.isPrefixOf "https://arxiv.org/pdf/big.pdf".data ||
      "https://".data.isPrefixOf "https://arxiv.org/pdf/big.pdf".data) = true := by decide
  have hpre : PDF_MAGIC.isPrefixOf oversizedPdf = true := by
    unfold oversizedPdf
    rw [List.isPrefixOf_iff_prefix]
    exact List.prefix_append _ _
  constructor
  · unfold oversizedPdf
    rw [List.length_append, List.length_replicate]
    norm_num [PDF_MAGIC, max_file_size]
  · simp [read_pdf_from_url, hscheme, hpre]

/-- C6 amended: the local-file acquisition path validates existence,
regular-file, non-emptiness, the 100 MB ceiling and the magic signature
(in that order); the URL acquisition path validates only the URL scheme
and the magic signature — the signature check also rejects every empty
payload — and performs no size check; and when acquisition fails, no
generation-provider call is made. -/
theorem c6_acquire_validation (f : LocalFile) (pdf_url : String)
    (httpResp : Except String (List Nat)) (env : GenEnv) :
    (read_pdf_from_file f = .ok f.content ↔
      (f.pathExists = true ∧ f.isRegularFile = true ∧ f.content.length ≠ 0 ∧
       f.content.length ≤ max_file_size ∧ PDF_MAGIC.isPrefixOf f.content = true)) ∧
    (∀ b, read_pdf_from_url pdf_url httpResp = .ok b →
      (("http://".data.isPrefixOf pdf_url.data || "https://".data.isPrefixOf pdf_url.data) = true ∧
       httpResp = .ok b ∧ PDF_MAGIC.isPrefixOf b = true ∧ b ≠ [])) ∧
    (∀ e, read_pdf_from_url pdf_url env.httpResp = .error e →
      (process_paper pdf_url env).2 = []) := by
  refine ⟨?_, ?_, ?_⟩
  · constructor
    · intro h
      unfold read_pdf_from_file at h
      repeat' split at h
      all_goals simp_all
    · rintro ⟨h1, h2, h3, h4, h5⟩
      unfold read_pdf_from_file
      simp [h1, h2, h3, h5]
      omega
  · intro b h
    unfold read_pdf_from_url at h
    repeat' split at h
    all_goals simp_all
    rename_i hor hpre
    subst h
    constructor
    · cases ht : "http://".data.isPrefixOf pdf_url.data with
      | false => exact Or.inr (hor ht)
      | true => exact Or.inl (List.isPrefixOf_iff_prefix.mp ht)
    · intro hnil
      rw [hnil] at hpre
      simp [PDF_MAGIC] at hpre
  · intro e h
    unfold process_paper
    rw [h]

/-- C6 witness: a well-formed small local file is accepted, and a
candidate whose URL scheme is invalid triggers no provider call. -/
theorem c6_acquire_validation_witness :
    read_pdf_from_file ⟨true, true, PDF_MAGIC ++ [0x0a]⟩ = .ok (PDF_MAGIC ++ [0x0a]) ∧
    (process_paper "ftp://example.com/x.pdf" okGenEnv).2 = [] := by
  constructor
  · exact (c6_acquire_validation ⟨true, true, PDF_MAGIC ++ [0x0a]⟩ "x" (.error "e") okGenEnv).1.mpr
      ⟨rfl, rfl, by decide, by decide, by decide⟩
  · exact (c6_acquire_validation ⟨true, true, []⟩ "ftp://example.com/x.pdf" (.error "e")
      okGenEnv).2.2 ("下載PDF失敗: " ++ "無效的URL格式: " ++ "ftp://example.com/x.pdf") rfl

/-- Rows touched by a status update: the row carrying the target id gets
the new status, and a truthy (non-empty) error message is recorded. -/
theorem update_status_mem_id (tbl : List UploadRecord) (uid st : String) (m : String)
    (ei : Option ExtractedUpd) (r : UploadRecord)
    (hr : r ∈ update_pending_upload_status tbl uid st (some m) ei) (hid : r.id = uid)
    (hm : m ≠ "") : r.status = st ∧ r.error_message = some m := by
  unfold update_pending_upload_status at hr
  rcases List.mem_map.mp hr with ⟨r0, hr0, heq⟩
  by_cases h : (r0.id == uid) = true
  · rw [if_pos h] at heq
    subst heq
    refine ⟨rfl, ?_⟩
    show (if (m == "") = true then r0.error_message else some m) = some m
    rw [if_neg (by simpa using hm)]
  · rw [if_neg h] at heq
    subst heq
    exact absurd hid (by simpa using h)

/-- A string with the pipeline failure prefix is never empty. -/
theorem pipeline_error_nonempty (s : String) :
    ("處理論文失敗: " ++ ("分析論文失敗: " ++ s)) ≠ "" := by
  intro h
  have hd := congrArg String.data h
  simp [String.data_append] at hd

/-- C5: when the extraction stage throws, the pipeline surfaces the
wrapped error; a pending submission whose pipeline call fails with that
error ends with status `failed` carrying the non-empty message in its
row, and no row is written to `papers`. -/
theorem c5_extraction_failure (db : DB) (rec : UploadRecord) (o : UploadOutcomes)
    (genv : GenEnv) (url : String) (pdf : List Nat) (s : String)
    (hread : read_pdf_from_url url genv.httpResp = .ok pdf)
    (hext : genv.extractResp = .error s)
    (hdl : o.downloadResp = .ok pdf)
    (hpipe : o.pipelineResp = .error ("處理論文失敗: " ++ ("分析論文失敗: " ++ s))) :
    (process_paper url genv).1 = .error ("處理論文失敗: " ++ ("分析論文失敗: " ++ s)) ∧
    (process_single_upload o db rec).1 = false ∧
    (∀ r ∈ (process_single_upload o db rec).2.1.pending_uploads, r.id = rec.id →
      r.status = "failed" ∧
      r.error_message = some ("處理論文失敗: " ++ ("分析論文失敗: " ++ s))) ∧
    (process_single_upload o db rec).2.1.papers = db.papers ∧
    ("處理論文失敗: " ++ ("分析論文失敗: " ++ s)) ≠ "" := by
  refine ⟨?_, ?_, ?_, ?_, pipeline_error_nonempty s⟩
  · unfold process_paper
    rw [hread]
    unfold extract_paper_info
    rw [hext]
  · simp [process_single_upload, hdl, hpipe]
  · intro r hr hid
    simp only [process_single_upload, hdl, hpipe] at hr
    exact update_status_mem_id _ _ _ _ _ r hr hid (pipeline_error_nonempty s)
  · simp [process_single_upload, hdl, hpipe]

/-- C5 witness: a concrete pending submission whose pipeline call fails
with the extraction-failure message ends unsuccessful with no `papers`
row. -/
theorem c5_extraction_failure_witness :
    (process_single_upload
        ⟨.ok PDF_MAGIC, .error ("處理論文失敗: " ++ ("分析論文失敗: " ++ "boom")), .ok "u", .ok ()⟩
        ⟨[⟨"u-1", "f.pdf", "https://cdn/f.pdf", "user", "pending", none, none, none, none, 0⟩], []⟩
        ⟨"u-1", "f.pdf", "https://cdn/f.pdf", "user", "pending", none, none, none, none, 0⟩).1 =
      false ∧
    (process_single_upload
        ⟨.ok PDF_MAGIC, .error ("處理論文失敗: " ++ ("分析論文失敗: " ++ "boom")), .ok "u", .ok ()⟩
        ⟨[⟨"u-1", "f.pdf", "https://cdn/f.pdf", "user", "pending", none, none, none, none, 0⟩], []⟩
        ⟨"u-1", "f.pdf", "https://cdn/f.pdf", "user", "pending", none, none, none, none, 0⟩).2.1.papers =
      [] := by
  have h := c5_extraction_failure
    ⟨[⟨"u-1", "f.pdf", "https://cdn/f.pdf", "user", "pending", none, none, none, none, 0⟩], []⟩
    ⟨"u-1", "f.pdf", "https://cdn/f.pdf", "user", "pending", none, none, none, none, 0⟩
    ⟨.ok PDF_MAGIC, .error ("處理論文失敗: " ++ ("分析論文失敗: " ++ "boom")), .ok "u", .ok ()⟩
    ⟨.ok PDF_MAGIC, .error "boom", .ok "", .ok []⟩ "https://x/a.pdf" PDF_MAGIC "boom"
    rfl rfl rfl rfl
  exact ⟨h.2.1, h.2.2.2.1⟩

/-- The upload-flow record build fails at the `authors` attribute access
for every `PaperInfo` value, because the model declares no such field. -/
theorem build_upload_db_record_authors (uid furl : String) (i : PaperInfo) (s a : String)
    (d : Nat) :
    build_upload_db_record uid furl i s a d =
      .error "AttributeError: 'PaperInfo' object has no attribute 'authors'" := rfl

/-- The first event of one submission's processing is the transition to
`processing`, before any external call. -/
theorem process_single_upload_first_event (o : UploadOutcomes) (db : DB) (rec : UploadRecord) :
    (process_single_upload o db rec).2.2.head? =
      some (.statusUpdate rec.id "processing" none) := by
  unfold process_single_upload
  dsimp only [build_upload_db_record_authors]
  repeat' split
  all_goals simp

/-- The statuses written for one submission during its processing: first
`processing`, then exactly one terminal status (possibly repeated once on
the doubly-reported insert-failure path). -/
theorem process_single_upload_status_names (o : UploadOutcomes) (db : DB) (rec : UploadRecord) :
    statusNames (process_single_upload o db rec).2.2 rec.id = ["processing", "completed"] ∨
    statusNames (process_single_upload o db rec).2.2 rec.id = ["processing", "failed"] ∨
    statusNames (process_single_upload o db rec).2.2 rec.id = ["processing", "failed", "failed"] := by
  unfold process_single_upload
  dsimp only [build_upload_db_record_authors]
  repeat' split
  all_goals refine Or.inr (Or.inl ?_)
  all_goals simp [statusNames]

/-- Every status write of one submission's processing targets that
submission's id. -/
theorem process_single_upload_status_ids (o : UploadOutcomes) (db : DB) (rec : UploadRecord) :
    ∀ i ∈ statusEventIds (process_single_upload o db rec).2.2, i = rec.id := by
  unfold process_single_upload
  dsimp only [build_upload_db_record_authors]
  repeat' split
  all_goals intro i hi
  all_goals simp [statusEventIds] at hi
  all_goals tauto

/-- One submission's processing writes `processing` exactly once. -/
theorem process_single_upload_processing_once (o : UploadOutcomes) (db : DB)
    (rec : UploadRecord) :
    processingIds (process_single_upload o db rec).2.2 = [rec.id] := by
  unfold process_single_upload
  dsimp only [build_upload_db_record_authors]
  repeat' split
  all_goals simp [processingIds]

/-- Status-id extraction distributes over trace concatenation. -/
theorem statusEventIds_append (a b : List Ev) :
    statusEventIds (a ++ b) = statusEventIds a ++ statusEventIds b := by
  simp [statusEventIds, List.filterMap_append]

/-- Processing-id extraction distributes over trace concatenation. -/
theorem processingIds_append (a b : List Ev) :
    processingIds (a ++ b) = processingIds a ++ processingIds b := by
  simp [processingIds, List.filterMap_append]

/-- The batch loop moves each fetched record to `processing` exactly
once, in fetch order. -/
theorem run_uploads_processing (env : String → UploadOutcomes) (l : List UploadRecord) :
    ∀ db, processingIds (run_uploads env db l).2.2 = l.map (fun r => r.id) := by
  induction l with
  | nil => intro db; rfl
  | cons r rest ih =>
      intro db
      show processingIds ((process_single_upload (env r.id) db r).2.2 ++
        (run_uploads env (process_single_upload (env r.id) db r).2.1 rest).2.2) = _
      rw [processingIds_append, process_single_upload_processing_once, ih]
      rfl

/-- Every status write of the batch loop targets a fetched record. -/
theorem run_uploads_status_ids (env : String → UploadOutcomes) (l : List UploadRecord) :
    ∀ db, ∀ i ∈ statusEventIds (run_uploads env db l).2.2, i ∈ l.map (fun r => r.id) := by
  induction l with
  | nil => intro db i hi; simp [run_uploads, statusEventIds] at hi
  | cons r rest ih =>
      intro db i hi
      have hsplit : statusEventIds (run_uploads env db (r :: rest)).2.2 =
          statusEventIds (process_single_upload (env r.id) db r).2.2 ++
          statusEventIds (run_uploads env (process_single_upload (env r.id) db r).2.1 rest).2.2 := by
        show statusEventIds ((process_single_upload (env r.id) db r).2.2 ++ _) = _
        rw [statusEventIds_append]
      rw [hsplit] at hi
      rcases List.mem_append.mp hi with h | h
      · exact List.mem_cons.mpr (Or.inl (process_single_upload_status_ids (env r.id) db r i h))
      · exact List.mem_cons.mpr (Or.inr (ih _ i h))

/-- The batch loop's success and failure counters account for every
fetched record. -/
theorem run_uploads_counts (env : String → UploadOutcomes) (l : List UploadRecord) :
    ∀ db, (run_uploads env db l).1.1 + (run_uploads env db l).1.2 = l.length := by
  induction l with
  | nil => intro db; rfl
  | cons r rest ih =>
      intro db
      show ((run_uploads env _ rest).1.1 + (if (process_single_upload (env r.id) db r).1 then 1 else 0)) +
        ((run_uploads env _ rest).1.2 + (if (process_single_upload (env r.id) db r).1 then 0 else 1)) =
        rest.length + 1
      rcases h : (process_single_upload (env r.id) db r).1
      all_goals have hih := ih (process_single_upload (env r.id) db r).2.1
      all_goals simp
      all_goals omega

/-- C4: the batch selects only `pending` submissions; each selected
submission's first recorded event is its transition to `processing`,
before any external call; its status writes are `processing` followed by
exactly one terminal status (`completed` or `failed`, the latter possibly
reported twice on the insert-failure path); and every status write of a
whole batch run targets one of the fetched (pending) submissions, so
rows already terminal are never transitioned. -/
theorem c4_upload_state_machine (tbl : List UploadRecord) (limit : Nat)
    (q : UploadRecord) (o : UploadOutcomes) (db : DB) (rec : UploadRecord)
    (env : String → UploadOutcomes) :
    (q ∈ get_pending_uploads tbl limit → q.status = "pending") ∧
    (process_single_upload o db rec).2.2.head? =
      some (.statusUpdate rec.id "processing" none) ∧
    (statusNames (process_single_upload o db rec).2.2 rec.id = ["processing", "completed"] ∨
     statusNames (process_single_upload o db rec).2.2 rec.id = ["processing", "failed"] ∨
     statusNames (process_single_upload o db rec).2.2 rec.id = ["processing", "failed", "failed"]) ∧
    (∀ i ∈ statusEventIds (process_pending_uploads env db limit).2.2,
      i ∈ (get_pending_uploads db.pending_uploads limit).map (fun r => r.id)) := by
  refine ⟨?_, process_single_upload_first_event o db rec,
    process_single_upload_status_names o db rec, ?_⟩
  · intro hq
    have h1 : q ∈ (tbl.filter (fun r => r.status == "pending")).mergeSort
        (fun a b => decide (a.created_at ≤ b.created_at)) :=
      List.mem_of_mem_take hq
    have h2 : q ∈ tbl.filter (fun r => r.status == "pending") :=
      (List.mergeSort_perm _ _).mem_iff.mp h1
    have h3 := List.mem_filter.mp h2
    simpa using h3.2
  · intro i hi
    unfold process_pending_uploads at hi
    by_cases hemp : (get_pending_uploads db.pending_uploads limit).isEmpty
    · rw [if_pos hemp] at hi
      simp [statusEventIds] at hi
    · rw [if_neg hemp] at hi
      exact run_uploads_status_ids env (get_pending_uploads db.pending_uploads limit) db i hi

/-- C4 witness: a two-row table with one pending and one completed row;
the fetch returns only the pending row, and a concrete processing run
shows the status trajectory. -/
theorem c4_upload_state_machine_witness :
    (⟨"u-1", "f.pdf", "url", "user", "pending", none, none, none, none, 0⟩ : UploadRecord) ∈
      get_pending_uploads
        [⟨"u-1", "f.pdf", "url", "user", "pending", none, none, none, none, 0⟩,
         ⟨"u-2", "g.pdf", "url2", "user", "completed", none, none, none, none, 1⟩] 5 ∧
    (⟨"u-1", "f.pdf", "url", "user", "pending", none, none, none, none, 0⟩ : UploadRecord).status =
      "pending" ∧
    (process_single_upload ⟨.error "download boom", .error "x", .error "x", .error "x"⟩
        ⟨[⟨"u-1", "f.pdf", "url", "user", "pending", none, none, none, none, 0⟩], []⟩
        ⟨"u-1", "f.pdf", "url", "user", "pending", none, none, none, none, 0⟩).2.2.head? =
      some (.statusUpdate "u-1" "processing" none) := by
  have hmem : (⟨"u-1", "f.pdf", "url", "user", "pending", none, none, none, none, 0⟩ :
      UploadRecord) ∈ get_pending_uploads
        [⟨"u-1", "f.pdf", "url", "user", "pending", none, none, none, none, 0⟩,
         ⟨"u-2", "g.pdf", "url2", "user", "completed", none, none, none, none, 1⟩] 5 := by
    unfold get_pending_uploads
    have hfil : ([⟨"u-1", "f.pdf", "url", "user", "pending", none, none, none, none, 0⟩,
        (⟨"u-2", "g.pdf", "url2", "user", "completed", none, none, none, none, 1⟩ :
          UploadRecord)].filter (fun r => r.status == "pending")) =
        [⟨"u-1", "f.pdf", "url", "user", "pending", none, none, none, none, 0⟩] := rfl
    rw [hfil, List.perm_singleton.mp (List.mergeSort_perm _ _)]
    decide
  refine ⟨hmem, ?_, ?_⟩
  · exact (c4_upload_state_machine
      [⟨"u-1", "f.pdf", "url", "user", "pending", none, none, none, none, 0⟩,
       ⟨"u-2", "g.pdf", "url2", "user", "completed", none, none, none, none, 1⟩] 5
      ⟨"u-1", "f.pdf", "url", "user", "pending", none, none, none, none, 0⟩
      ⟨.error "x", .error "x", .error "x", .error "x"⟩ ⟨[], []⟩
      ⟨"u-1", "f.pdf", "url", "user", "pending", none, none, none, none, 0⟩
      (fun _ => ⟨.error "x", .error "x", .error "x", .error "x"⟩)).1 hmem
  · exact (c4_upload_state_machine [] 5
      ⟨"u-1", "f.pdf", "url", "user", "pending", none, none, none, none, 0⟩
      ⟨.error "download boom", .error "x", .error "x", .error "x"⟩
      ⟨[⟨"u-1", "f.pdf", "url", "user", "pending", none, none, none, none, 0⟩], []⟩
      ⟨"u-1", "f.pdf", "url", "user", "pending", none, none, none, none, 0⟩
      (fun _ => ⟨.error "x", .error "x", .error "x", .error "x"⟩)).2.1

/-- C10: for every batch run the returned summary satisfies
`total = success + failed`, `total` equals the number of fetched pending
submissions, `total` is at most `max_count`, and the run transitions
each fetched submission to `processing` exactly once, in fetch order. -/
theorem c10_batch_summary (env : String → UploadOutcomes) (db : DB) (max_count : Nat) :
    (process_pending_uploads env db max_count).1.total =
      (get_pending_uploads db.pending_uploads max_count).length ∧
    (process_pending_uploads env db max_count).1.total =
      (process_pending_uploads env db max_count).1.success +
        (process_pending_uploads env db max_count).1.failed ∧
    (process_pending_uploads env db max_count).1.total ≤ max_count ∧
    processingIds (process_pending_uploads env db max_count).2.2 =
      (get_pending_uploads db.pending_uploads max_count).map (fun r => r.id) := by
  have hlen : (get_pending_uploads db.pending_uploads max_count).length ≤ max_count := by
    unfold get_pending_uploads
    simp [List.length_take_le]
  unfold process_pending_uploads
  by_cases hemp : (get_pending_uploads db.pending_uploads max_count).isEmpty
  · rw [if_pos hemp]
    have hnil : get_pending_uploads db.pending_uploads max_count = [] :=
      List.isEmpty_iff.mp hemp
    simp [hnil, processingIds]
  · rw [if_neg hemp]
    refine ⟨rfl, ?_, hlen, ?_⟩
    · exact (run_uploads_counts env (get_pending_uploads db.pending_uploads max_count) db).symm
    · exact run_uploads_processing env (get_pending_uploads db.pending_uploads max_count) db

/-- A payload of `2^32 - 36` bytes overflows the 32-bit RIFF size field:
the first header pack raises even at the default mono/16-bit/24 kHz
parameters. -/
theorem convert_overflow (pcm : List Nat) (h : pcm.length = 4294967260) :
    convert_pcm_to_wav_in_memory pcm 1 2 24000 =
      .error "struct.error: argument out of range" := by
  unfold convert_pcm_to_wav_in_memory
  rw [h]
  norm_num [packU32]
  rfl

/-- C3 counterexample: with the valid parameter triple (1, 2, 24000), a
payload of `2^32 - 36` zero bytes makes the packaging function error, so
the function does not error only on malformed parameters, and the
"every raw PCM byte sequence maps to a container" reading fails. -/
theorem c3_counterexample :
    convert_pcm_to_wav_in_memory (List.replicate 4294967260 0) 1 2 24000 =
      Except.error "struct.error: argument out of range" :=
  convert_overflow (List.replicate 4294967260 0) (List.length_replicate 4294967260 0)

set_option maxHeartbeats 2000000 in
/-- C3 amended: for every payload that fits the container's 32-bit size
fields and every parameter triple whose header fields are representable,
the packaging function deterministically produces exactly the 44-byte
RIFF/WAVE header followed by the payload verbatim; the declared header
parameters read back as exactly the input triple and the embedded sample
payload is byte-identical to the input (so the function errors only on
out-of-range parameters or an oversized payload). -/
theorem c3_packaging (pcm : List Nat) (c w r : Nat)
    (hv : ValidWavParams c w r) (hlen : 36 + pcm.length < 4294967296) :
    convert_pcm_to_wav_in_memory pcm c w r = .ok (wavHeader c w r pcm.length ++ pcm) ∧
    wav_channels (wavHeader c w r pcm.length ++ pcm) = c ∧
    wav_sample_width (wavHeader c w r pcm.length ++ pcm) = w ∧
    wav_frame_rate (wavHeader c w r pcm.length ++ pcm) = r ∧
    wav_payload (wavHeader c w r pcm.length ++ pcm) = pcm := by
  obtain ⟨h1, h2, h3, h4, h5, h6, h7⟩ := hv
  have hc : c < 65536 := lt_of_le_of_lt (Nat.le_mul_of_pos_right c (by omega)) h5
  have hw8 : w * 8 < 65536 := by omega
  have hdl : pcm.length / (c * w) * (c * w) ≤ pcm.length := Nat.div_mul_le_self _ _
  have hdl32 : 36 + pcm.length / (c * w) * (c * w) < 4294967296 := by omega
  have hdl32b : pcm.length / (c * w) * (c * w) < 4294967296 := by omega
  have hlen32 : pcm.length < 4294967296 := by omega
  refine ⟨?_, ?_, ?_, ?_, ?_⟩
  · unfold convert_pcm_to_wav_in_memory
    rw [if_neg (by omega), if_neg (by omega), if_neg (by omega)]
    simp only [packU16, packU32, if_pos hdl32, if_pos (by norm_num : (16 : Nat) < 4294967296),
      if_pos (by norm_num : (1 : Nat) < 65536), if_pos hc, if_pos h6, if_pos h7, if_pos h5,
      if_pos hw8, if_pos hdl32b, if_pos hlen, if_pos hlen32, pure_bind, except_ok_bind]
    by_cases heq : pcm.length / (c * w) * (c * w) = pcm.length
    · rw [if_pos heq]
      simp only [wavHeader, heq, List.append_assoc]
      rfl
    · rw [if_neg heq]
      simp only [except_ok_bind, wavHeader, List.append_assoc]
      rfl
  · have h : wav_channels (wavHeader c w r pcm.length ++ pcm) =
        c % 256 + 256 * (c / 256 % 256) := rfl
    rw [h]; omega
  · have h : wav_sample_width (wavHeader c w r pcm.length ++ pcm) =
        (w * 8 % 256 + 256 * (w * 8 / 256 % 256)) / 8 := rfl
    rw [h]; omega
  · have h : wav_frame_rate (wavHeader c w r pcm.length ++ pcm) =
        r % 256 + 256 * (r / 256 % 256) + 65536 * (r / 65536 % 256) +
          16777216 * (r / 16777216 % 256) := rfl
    rw [h]; omega
  · have h : (wavHeader c w r pcm.length).length = 44 := rfl
    rw [wav_payload, ← h, List.drop_left]

/-- C3 witness: the amended theorem at a two-byte payload with the
default mono/16-bit/24 kHz triple. -/
theorem c3_packaging_witness :
    ValidWavParams 1 2 24000 ∧
    (convert_pcm_to_wav_in_memory [7, 8] 1 2 24000 =
        .ok (wavHeader 1 2 24000 2 ++ [7, 8]) ∧
      wav_channels (wavHeader 1 2 24000 2 ++ [7, 8]) = 1 ∧
      wav_sample_width (wavHeader 1 2 24000 2 ++ [7, 8]) = 2 ∧
      wav_frame_rate (wavHeader 1 2 24000 2 ++ [7, 8]) = 24000 ∧
      wav_payload (wavHeader 1 2 24000 2 ++ [7, 8]) = [7, 8]) :=
  ⟨by decide, c3_packaging [7, 8] 1 2 24000 (by decide) (by decide)⟩
